import Mathlib

/-!
Verification of the mpv volume-mixer specification against the sources
`src/common/av_log.c` (the FFmpeg/Libav logging bridge) and
`src/unnamed/part_000` (the mixer header `mixer.h`).

The logging bridge is embedded shallowly from `src/common/av_log.c`:
its global state becomes an explicit record, the `av_log` callback a
state-transition function producing a list of observable log events, and
`init_libav` / `uninit_libav` state transformers.  The mixer operations
(whose implementation file is not part of the sources, only `mixer.h`)
are modelled from the specification text, as documented on each
definition.
-/

namespace Spec2Proof

/-! ## Constants of the external libavutil API (`libavutil/log.h`).

These are the public, stable FFmpeg/Libav log level constants used by
`src/common/av_log.c`; numerically smaller means more severe. -/

def AV_LOG_PANIC : Int := 0

def AV_LOG_FATAL : Int := 8

def AV_LOG_ERROR : Int := 16

def AV_LOG_WARNING : Int := 24

def AV_LOG_INFO : Int := 32

def AV_LOG_VERBOSE : Int := 40

def AV_LOG_DEBUG : Int := 48

/-- Modelled from the spec: the application log severity constants come from
`common/msg.h`, which is not among the sources (only its user
`src/common/av_log.c` is).  The spec describes application log levels ordered
by severity; we use the classic MPlayer/mpv numbering in which a numerically
smaller value is more severe: fatal 0, error 1, warning 2, info 4, verbose 6,
debug 7. -/
def MSGL_FATAL : Nat := 0

def MSGL_ERR : Nat := 1

def MSGL_WARN : Nat := 2

def MSGL_INFO : Nat := 4

def MSGL_V : Nat := 6

def MSGL_DBG2 : Nat := 7

/-- Embedding of `av_log_level_to_mp_level` (src/common/av_log.c:69-82):
the chain of `if (av_level > ...) return ...;` statements, translated
verbatim. -/
def av_log_level_to_mp_level (av_level : Int) : Nat :=
  if av_level > AV_LOG_VERBOSE then MSGL_DBG2
  else if av_level > AV_LOG_INFO then MSGL_V
  else if av_level > AV_LOG_WARNING then MSGL_V
  else if av_level > AV_LOG_ERROR then MSGL_WARN
  else if av_level > AV_LOG_FATAL then MSGL_ERR
  else MSGL_FATAL

/-! ## The identity of an `av_log` source object.

`get_av_log` (src/common/av_log.c:84-117) receives a `void *ptr` which is
either NULL, or points to a structure whose first member is an
`AVClass *` (possibly NULL).  When the class name is "AVCodecContext" the
object carries an optional `codec` with a media type and a `decode`
function pointer; when it is "AVFormatContext" it carries an `iformat`
pointer.  We model exactly the attributes the bridge reads. -/

/-- External libavutil constant `AVMEDIA_TYPE_VIDEO`. -/
def AVMEDIA_TYPE_VIDEO : Int := 0

/-- External libavutil constant `AVMEDIA_TYPE_AUDIO`. -/
def AVMEDIA_TYPE_AUDIO : Int := 1

/-- The attributes of `AVCodec` read by `get_av_log`: `s->codec->type` and
whether `s->codec->decode` is a non-NULL function pointer. -/
structure AVCodecModel where
  codecType : Int
  hasDecode : Bool
  deriving DecidableEq, Repr

/-- The attributes of an `AVClass` read by the bridge: `class_name` and the
result of `item_name(ptr)`. -/
structure AVClassInfo where
  className : String
  itemName : String
  deriving DecidableEq, Repr

/-- The source-object identity handed to the `av_log` callback: either the
NULL pointer, or an object with an optional `AVClass`, an optional codec
(meaningful when the class is "AVCodecContext") and an `iformat` flag
(meaningful when the class is "AVFormatContext"). -/
inductive AVLogSource where
  | nullPtr : AVLogSource
  | obj (avclass : Option AVClassInfo) (codec : Option AVCodecModel)
      (hasIformat : Bool) : AVLogSource
  deriving DecidableEq, Repr

/-- The four named sinks of the bridge, i.e. the four static `struct mp_log`
variables `log_root`, `log_decaudio`, `log_decvideo`, `log_demuxer`
(src/common/av_log.c:66), addressable as `root`, `root.audio`,
`root.video`, `root.demuxer`. -/
inductive MpSink where
  | root : MpSink
  | decaudio : MpSink
  | decvideo : MpSink
  | demuxer : MpSink
  deriving DecidableEq, Repr

/-- The inner codec dispatch of `get_av_log` (src/common/av_log.c:98-107):
`if (s->codec) { if type == AUDIO { if decode return log_decaudio; } else if
type == VIDEO { if decode return log_decvideo; } }`.  `none` means no early
return was taken and control falls through. -/
def codec_ctx_sink (codec : Option AVCodecModel) : Option MpSink :=
  match codec with
  | none => none
  | some c =>
    if c.codecType = AVMEDIA_TYPE_AUDIO then
      (if c.hasDecode then some MpSink.decaudio else none)
    else if c.codecType = AVMEDIA_TYPE_VIDEO then
      (if c.hasDecode then some MpSink.decvideo else none)
    else none

/-- Embedding of `get_av_log` (src/common/av_log.c:84-117).  NULL pointer and
NULL `AVClass` both select `log_root` (the latter after a warning, which does
not affect the selection); a codec context dispatches through
`codec_ctx_sink`; a format context with an `iformat` selects `log_demuxer`;
everything else falls through to `log_root`. -/
def get_av_log (ptr : AVLogSource) : MpSink :=
  match ptr with
  | AVLogSource.nullPtr => MpSink.root
  | AVLogSource.obj none _ _ => MpSink.root
  | AVLogSource.obj (some cls) codec hasIformat =>
    match (if cls.className = "AVCodecContext" then codec_ctx_sink codec
           else none) with
    | some s => s
    | none =>
      if cls.className = "AVFormatContext" then
        (if hasIformat then MpSink.demuxer else MpSink.root)
      else MpSink.root

/-- The `item_name` used for the "prefix: " label
(src/common/av_log.c:122,139): `avc ? avc->item_name(ptr) : "?"`, where
`avc` is NULL when the pointer is NULL or the object's class is NULL. -/
def sourceItemName (ptr : AVLogSource) : String :=
  match ptr with
  | AVLogSource.nullPtr => "?"
  | AVLogSource.obj none _ _ => "?"
  | AVLogSource.obj (some cls) _ _ => cls.itemName

/-! ## Bridge state and the `av_log` callback. -/

/-- The process-wide mutable state of the logging bridge
(src/common/av_log.c:65-67): the attached `mpv_global` (identified here by a
natural number), the four lazily created sinks (each recorded as the
identity of the global it was created from, `none` when not created or
freed), and the incomplete-line flag ` log_print_prefix`. -/
structure AvLogState where
  log_mpv_instance : Option Nat
  log_root : Option Nat
  log_decaudio : Option Nat
  log_decvideo : Option Nat
  log_demuxer : Option Nat
  log_print_prefix : Bool
  deriving DecidableEq, Repr

/-- The verbosity configuration of the attached global: the result of
`mp_msg_test_log(log, mp_level)` for each sink and application level
(external function from `common/msg.h`, abstracted as a predicate). -/
structure LogConfig where
  testLog : MpSink → Nat → Bool

/-- Observable output of one callback invocation: either the raw fallback
`vfprintf(stderr, fmt, vl)`, the `"%s: "` label written by `mp_msg_log`, or
the forwarded message body written by `mp_msg_log_va`. -/
inductive LogEvent where
  | stderrOut (fmt : List Char) : LogEvent
  | labelOut (sink : MpSink) (mpLevel : Nat) (name : String) : LogEvent
  | msgOut (sink : MpSink) (mpLevel : Nat) (fmt : List Char) : LogEvent
  deriving DecidableEq, Repr

/-- C `strlen` of the format string, modelled on `List Char`. -/
def strlen (fmt : List Char) : Nat := fmt.length

/-- The index expression `strlen(fmt) - 1` computed in `size_t` arithmetic
(src/common/av_log.c:140): subtraction of 1 wraps modulo 2^64, so an empty
format string yields the huge index 2^64 - 1. -/
def size_t_dec (n : Nat) : Nat := (n + (2 ^ 64 - 1)) % 2 ^ 64

/-- The checked embedding of the character read `fmt[strlen(fmt) - 1]`
(src/common/av_log.c:140): `none` signals an out-of-bounds access. -/
def fmt_last_char (fmt : List Char) : Option Char := fmt[size_t_dec (strlen fmt)]?

/-- Embedding of `mp_msg_av_log_callback` (src/common/av_log.c:119-146) as a
state-transition function.  Result `none` represents the undefined behaviour
of an out-of-bounds read of the format string; otherwise the new bridge
state and the list of emitted events are returned.  When no instance is
attached, the message goes verbatim to stderr and the state is untouched;
when attached, the sink is selected by `get_av_log`, the message is filtered
by `mp_msg_test_log`, the "prefix: " label is emitted iff the incomplete-line
flag is set, and the flag is updated to whether the message ends in a
newline. -/
def mp_msg_av_log_callback (cfg : LogConfig) (st : AvLogState)
    (ptr : AVLogSource) (level : Int) (fmt : List Char) :
    Option (AvLogState × List LogEvent) :=
  let mp_level := av_log_level_to_mp_level level
  match st.log_mpv_instance with
  | none => some (st, [LogEvent.stderrOut fmt])
  | some _ =>
    let log := get_av_log ptr
    if cfg.testLog log mp_level then
      match fmt_last_char fmt with
      | none => none
      | some c =>
        some ({ st with log_print_prefix := c = '\n' },
          (if st.log_print_prefix then
            [LogEvent.labelOut log mp_level (sourceItemName ptr)]
           else []) ++ [LogEvent.msgOut log mp_level fmt])
    else some (st, [])

/-- Embedding of `init_libav` (src/common/av_log.c:148-171), restricted to the
bridge state it mutates: under the lock, if no instance is attached, attach
the given global and create the four sinks from it; otherwise leave
everything unchanged.  (The unconditional libav registration calls touch no
bridge state.) -/
def init_libav (global : Nat) (st : AvLogState) : AvLogState :=
  match st.log_mpv_instance with
  | none =>
    { st with
      log_mpv_instance := some global
      log_root := some global
      log_decaudio := some global
      log_decvideo := some global
      log_demuxer := some global }
  | some _ => st

/-- Embedding of `uninit_libav` (src/common/av_log.c:173-181): under the lock,
if the attached instance is exactly the given global, detach it and free
`log_root` (which, as the talloc parent, frees the three child sinks with
it); otherwise leave the state unchanged. -/
def uninit_libav (global : Nat) (st : AvLogState) : AvLogState :=
  if st.log_mpv_instance = some global then
    { st with
      log_mpv_instance := none
      log_root := none
      log_decaudio := none
      log_decvideo := none
      log_demuxer := none }
  else st

/-- Whether a forwarded message ends in a newline, the meaning of the
expression `fmt[strlen(fmt) - 1] == '\n'` for a non-empty format string. -/
def endsInNewline (fmt : List Char) : Bool :=
  match fmt.getLast? with
  | some c => c = '\n'
  | none => false

/-! ## The mixer.

The sources contain only the mixer's header `mixer.h`
(src/unnamed/part_000); the implementation file is not among them, so the
operations below are modelled from the specification (spec.md §3, §4.2,
§4.4), keeping the header's names. Volumes and balance are
rationals (the spec's "real numbers" restricted to the values actually
produced by the arithmetic). -/

/-- The `MPOpts.softvol` configuration values `SOFTVOL_NO`, `SOFTVOL_YES`,
`SOFTVOL_AUTO` (src/unnamed/part_000:25-29), i.e. the spec's
{HARDWARE, SOFTWARE, AUTO}. -/
inductive SoftVolMode where
  | softvolNo : SoftVolMode
  | softvolYes : SoftVolMode
  | softvolAuto : SoftVolMode
  deriving DecidableEq, Repr

/-- Modelled from the spec (§3): VolumeState holds per-channel volumes in
[0, 100], a balance in [-1, 1], the mute flag and the softvol mode. -/
structure VolumeState where
  leftVolume : ℚ
  rightVolume : ℚ
  balance : ℚ
  mute : Bool
  softvol : SoftVolMode
  deriving DecidableEq, Repr

/-- Modelled from the spec (§4.3): the resolved application mechanism of a
binding, HARDWARE or SOFTWARE. -/
inductive ActiveMode where
  | hardware : ActiveMode
  | software : ActiveMode
  deriving DecidableEq, Repr

/-- Modelled from the spec (§3): the transient device binding; the mixer owns
at most one, recorded by its resolved active mode. -/
structure DeviceBinding where
  activeMode : ActiveMode
  deriving DecidableEq, Repr

/-- Modelled from the spec (§2, §3): the mixer owns one VolumeState and zero
or one DeviceBinding. -/
structure Mixer where
  vol : VolumeState
  binding : Option DeviceBinding
  deriving DecidableEq, Repr

/-- Clamp a rational to the interval [lo, hi], the spec's silent range
correction (§7). -/
def clampQ (lo hi x : ℚ) : ℚ := max lo (min hi x)

/-- Modelled from the spec (§4.2): `mixer_getvolume` returns the current
per-channel percentages from VolumeState, independent of binding state. -/
def mixer_getvolume (m : Mixer) : ℚ × ℚ := (m.vol.leftVolume, m.vol.rightVolume)

/-- Modelled from the spec (§4.2): `mixer_setvolume` clamps each input to
[0, 100], stores it, and derives the implied balance
(right-left)/(right+left) when right+left > 0, leaving balance unchanged
otherwise.  Mute is not implied and stays as it is. -/
def mixer_setvolume (m : Mixer) (l r : ℚ) : Mixer :=
  let lc := clampQ 0 100 l
  let rc := clampQ 0 100 r
  let bal := if 0 < rc + lc then (rc - lc) / (rc + lc) else m.vol.balance
  { m with vol := { m.vol with leftVolume := lc, rightVolume := rc, balance := bal } }

/-- Modelled from the spec (§4.2): `mixer_getbothvolume` returns the combined
volume, the average of the two channels. -/
def mixer_getbothvolume (m : Mixer) : ℚ :=
  (m.vol.leftVolume + m.vol.rightVolume) / 2

/-- Modelled from the spec (§4.2): the fixed configured volume step
("e.g., 3 units"). -/
def volstep : ℚ := 3

/-- Modelled from the spec (§4.2): `mixer_incvolume` adjusts the combined
volume up by `volstep`, clamped to [0, 100], preserving balance (the
per-channel values are re-derived as combined*(1-balance) and
combined*(1+balance), the inverse of `mixer_setvolume`'s balance
derivation), then behaves as `mixer_setvolume` on the derived values. -/
def mixer_incvolume (m : Mixer) : Mixer :=
  let c := clampQ 0 100 (mixer_getbothvolume m + volstep)
  mixer_setvolume m (c * (1 - m.vol.balance)) (c * (1 + m.vol.balance))

/-- Modelled from the spec (§4.2): `mixer_decvolume`, the downward analogue of
`mixer_incvolume`. -/
def mixer_decvolume (m : Mixer) : Mixer :=
  let c := clampQ 0 100 (mixer_getbothvolume m - volstep)
  mixer_setvolume m (c * (1 - m.vol.balance)) (c * (1 + m.vol.balance))

/-- Modelled from the spec (§4.2): `mixer_setmute` sets the mute flag and
nothing else of the VolumeState; the stored volumes and balance are
preserved underneath (§3). -/
def mixer_setmute (m : Mixer) (mute : Bool) : Mixer :=
  { m with vol := { m.vol with mute := mute } }

/-- Modelled from the spec (§4.2): `mixer_getmute` returns the mute flag. -/
def mixer_getmute (m : Mixer) : Bool := m.vol.mute

/-- Modelled from the spec (§4.2): `mixer_getbalance` returns the stored
balance. -/
def mixer_getbalance (m : Mixer) : ℚ := m.vol.balance

/-- Modelled from the spec (§4.2, §8): `mixer_setbalance` clamps the balance
to [-1, 1] and stores it, recomputes the per-channel volumes from the
current combined volume and the new balance, and applies them exactly as
`mixer_setvolume` does (clamped to [0, 100] and pushed to the active
mechanism).  Per §8 the stored balance is the clamped argument itself, so
`mixer_getbalance` afterwards returns it exactly regardless of binding
state. -/
def mixer_setbalance (m : Mixer) (bal : ℚ) : Mixer :=
  let b := clampQ (-1) 1 bal
  let c := mixer_getbothvolume m
  { m with vol := { m.vol with
      balance := b
      leftVolume := clampQ 0 100 (c * (1 - b))
      rightVolume := clampQ 0 100 (c * (1 + b)) } }

/-- Modelled from the spec (§3): the loudness actually emitted — zero on both
channels while muted, the stored volumes otherwise. -/
def emittedVolume (m : Mixer) : ℚ × ℚ :=
  if m.vol.mute then (0, 0) else (m.vol.leftVolume, m.vol.rightVolume)

/-- Modelled from the spec (§4.4): the restore-data token carries the four
fields {left, right, balance, mute}; the numeric fields are serialized as
decimal text with six fractional digits (fixed-point micro-units), the
round-trip tolerance the spec demands being 1e-6. -/
structure RestoreData where
  leftMicro : ℤ
  rightMicro : ℤ
  balanceMicro : ℤ
  mute : Bool
  deriving DecidableEq, Repr

/-- Serialize a rational to six decimal places (round to the nearest
micro-unit). -/
def encode6 (x : ℚ) : ℤ := round (x * 1000000)

/-- Parse a six-decimal-place number back to a rational. -/
def decode6 (n : ℤ) : ℚ := (n : ℚ) / 1000000

/-- Modelled from the spec (§4.4): `mixer_get_volume_restore_data` produces a
serializable token holding {left, right, balance, mute}. -/
def mixer_get_volume_restore_data (m : Mixer) : RestoreData :=
  { leftMicro := encode6 m.vol.leftVolume
    rightMicro := encode6 m.vol.rightVolume
    balanceMicro := encode6 m.vol.balance
    mute := m.vol.mute }

/-- Modelled from the spec (§4.4): the corresponding load path of the
persistence collaborator, reconstructing VolumeState from the token. -/
def load_volume_restore_data (m : Mixer) (d : RestoreData) : Mixer :=
  { m with vol := { m.vol with
      leftVolume := decode6 d.leftMicro
      rightVolume := decode6 d.rightMicro
      balance := decode6 d.balanceMicro
      mute := d.mute } }

/-- The data-model invariant of VolumeState (spec §3): channel volumes in
[0, 100], balance in [-1, 1], and balance derivable from the channel pair —
balance * (left + right) = right - left, the balance-driven consistency
maintained by every mixer operation. -/
def VolumeState.wf (v : VolumeState) : Prop :=
  0 ≤ v.leftVolume ∧ v.leftVolume ≤ 100 ∧
  0 ≤ v.rightVolume ∧ v.rightVolume ≤ 100 ∧
  -1 ≤ v.balance ∧ v.balance ≤ 1 ∧
  v.balance * (v.leftVolume + v.rightVolume) = v.rightVolume - v.leftVolume

instance (v : VolumeState) : Decidable v.wf := by
  unfold VolumeState.wf
  infer_instance

/-! ## Spec-side sink selection (for the refinement claim C2).

These definitions follow the words of the specification, to be compared
with `get_av_log`, the function embedded from the source. -/

/-- Spec wording: "a codec context whose codec is of audio (resp. video) type
and has a decode function". -/
def isCodecDecCtx (t : Int) (ptr : AVLogSource) : Bool :=
  match ptr with
  | AVLogSource.obj (some cls) (some c) _ =>
    cls.className == "AVCodecContext" && c.codecType == t && c.hasDecode
  | _ => false

/-- Spec wording: "a format context with an input format (iformat)". -/
def isInputFormatCtx (ptr : AVLogSource) : Bool :=
  match ptr with
  | AVLogSource.obj (some cls) _ hasIformat =>
    cls.className == "AVFormatContext" && hasIformat
  | _ => false

/-- The sink selection described by the spec sentence of claim C2: audio
decoder contexts to `root.audio`, video decoder contexts to `root.video`,
input format contexts to `root.demuxer`, every other source identity
(including a null pointer or null class) to `root`. -/
def specSinkOf (ptr : AVLogSource) : MpSink :=
  if isCodecDecCtx AVMEDIA_TYPE_AUDIO ptr then MpSink.decaudio
  else if isCodecDecCtx AVMEDIA_TYPE_VIDEO ptr then MpSink.decvideo
  else if isInputFormatCtx ptr then MpSink.demuxer
  else MpSink.root

/-! ## Concrete fixtures used to exercise the theorems below. -/

/-- A bridge state with no attached instance. -/
def stDetached : AvLogState :=
  { log_mpv_instance := none, log_root := none, log_decaudio := none,
    log_decvideo := none, log_demuxer := none, log_print_prefix := true }

/-- A bridge state with instance 1 attached and its sinks created. -/
def stAttached : AvLogState :=
  { log_mpv_instance := some 1, log_root := some 1, log_decaudio := some 1,
    log_decvideo := some 1, log_demuxer := some 1, log_print_prefix := true }

/-- A verbosity configuration that lets every message through. -/
def cfgAll : LogConfig := ⟨fun _ _ => true⟩

/-- A concrete newline-terminated message. -/
def fmtHello : List Char := ['h', 'i', '\n']

/-- A concrete mixer at full centered volume, unmuted, with no binding. -/
def mixer100 : Mixer :=
  { vol := { leftVolume := 100, rightVolume := 100, balance := 0, mute := false,
             softvol := SoftVolMode.softvolAuto }
    binding := none }

/-! ## Shared helper lemmas about the logging bridge. -/

/-- For a non-empty format string (of any realistic length), the wrapping
`size_t` index `strlen(fmt) - 1` denotes the last character. -/
lemma fmt_last_char_eq_getLast (fmt : List Char) (hne : fmt ≠ [])
    (hlen : strlen fmt < 2 ^ 64) : fmt_last_char fmt = fmt.getLast? := by
  have h0 : fmt.length ≠ 0 := fun h => hne (List.length_eq_zero.mp h)
  have h2 : size_t_dec (strlen fmt) = fmt.length - 1 := by
    unfold size_t_dec strlen at *
    have h : fmt.length + (2 ^ 64 - 1) = (fmt.length - 1) + 1 * 2 ^ 64 := by omega
    rw [h, Nat.add_mul_mod_self_right]
    exact Nat.mod_eq_of_lt (by omega)
  unfold fmt_last_char
  rw [h2, List.getLast?_eq_getElem?]

/-- Evaluation of the callback on a forwarded message: with an instance
attached and the message passing the level filter, the "prefix: " label is
emitted exactly when the incomplete-line flag is set, the body is forwarded
to the selected sink, and the flag becomes whether the message ends in a
newline. -/
lemma callback_forwarded_eq (cfg : LogConfig) (st : AvLogState)
    (ptr : AVLogSource) (level : Int) (fmt : List Char) (g : Nat)
    (hatt : st.log_mpv_instance = some g)
    (hfwd : cfg.testLog (get_av_log ptr) (av_log_level_to_mp_level level) = true)
    (hne : fmt ≠ []) (hlen : strlen fmt < 2 ^ 64) :
    mp_msg_av_log_callback cfg st ptr level fmt =
      some ({ st with log_print_prefix := endsInNewline fmt },
        (if st.log_print_prefix then
          [LogEvent.labelOut (get_av_log ptr) (av_log_level_to_mp_level level)
            (sourceItemName ptr)]
         else []) ++
        [LogEvent.msgOut (get_av_log ptr) (av_log_level_to_mp_level level) fmt]) := by
  obtain ⟨c, hc⟩ := Option.isSome_iff_exists.mp (List.getLast?_isSome.mpr hne)
  have hlast : fmt_last_char fmt = some c := by
    rw [fmt_last_char_eq_getLast fmt hne hlen, hc]
  have hend : endsInNewline fmt = decide (c = '\n') := by
    unfold endsInNewline
    rw [hc]
  unfold mp_msg_av_log_callback
  rw [hatt]
  simp only [hfwd, if_true, hlast, hend]

/-! ## Claim theorems for the logging bridge. -/

/-- C1: for a message forwarded through the bridge (instance attached,
level filter passed), the "prefix: " label is emitted exactly when the
incomplete-line flag is set — so the message following one that did not
end in a newline is logged without re-emitting the label — and the flag
after the call equals whether this call's message ended in a newline. -/
theorem forwarded_message_label_and_flag (cfg : LogConfig) (st : AvLogState)
    (ptr : AVLogSource) (level : Int) (fmt : List Char) (g : Nat)
    (hatt : st.log_mpv_instance = some g)
    (hfwd : cfg.testLog (get_av_log ptr) (av_log_level_to_mp_level level) = true)
    (hne : fmt ≠ []) (hlen : strlen fmt < 2 ^ 64) :
    mp_msg_av_log_callback cfg st ptr level fmt =
      some ({ st with log_print_prefix := endsInNewline fmt },
        (if st.log_print_prefix then
          [LogEvent.labelOut (get_av_log ptr) (av_log_level_to_mp_level level)
            (sourceItemName ptr)]
         else []) ++
        [LogEvent.msgOut (get_av_log ptr) (av_log_level_to_mp_level level) fmt]) :=
  callback_forwarded_eq cfg st ptr level fmt g hatt hfwd hne hlen

/-- Witness for C1 at a concrete attached state and concrete message. -/
theorem forwarded_message_label_and_flag_witness :
    stAttached.log_mpv_instance = some 1 ∧
    cfgAll.testLog (get_av_log AVLogSource.nullPtr)
      (av_log_level_to_mp_level 32) = true ∧
    fmtHello ≠ [] ∧ strlen fmtHello < 2 ^ 64 ∧
    mp_msg_av_log_callback cfgAll stAttached AVLogSource.nullPtr 32 fmtHello =
      some ({ stAttached with log_print_prefix := endsInNewline fmtHello },
        (if stAttached.log_print_prefix then
          [LogEvent.labelOut (get_av_log AVLogSource.nullPtr)
            (av_log_level_to_mp_level 32) (sourceItemName AVLogSource.nullPtr)]
         else []) ++
        [LogEvent.msgOut (get_av_log AVLogSource.nullPtr)
          (av_log_level_to_mp_level 32) fmtHello]) :=
  ⟨rfl, rfl, by decide, by decide,
    forwarded_message_label_and_flag cfgAll stAttached AVLogSource.nullPtr 32
      fmtHello 1 rfl rfl (by decide) (by decide)⟩

/-- C2: the sink selection of `get_av_log` is total and agrees everywhere
with the mapping described by the spec: audio decoder contexts to
`root.audio`, video decoder contexts to `root.video`, input format
contexts to `root.demuxer`, and every other source identity (null pointer
and null class included) to `root`. -/
theorem get_av_log_refines_spec_sink (ptr : AVLogSource) :
    get_av_log ptr = specSinkOf ptr := by
  cases ptr with
  | nullPtr => rfl
  | obj avclass codec hasIformat =>
    cases avclass with
    | none => rfl
    | some cls =>
      cases codec with
      | none =>
        simp only [get_av_log, specSinkOf, isCodecDecCtx, isInputFormatCtx,
          codec_ctx_sink]
        by_cases h1 : cls.className = "AVCodecContext" <;>
          by_cases h2 : cls.className = "AVFormatContext" <;>
            cases hasIformat <;> simp_all
      | some c =>
        simp only [get_av_log, specSinkOf, isCodecDecCtx, isInputFormatCtx,
          codec_ctx_sink, AVMEDIA_TYPE_AUDIO, AVMEDIA_TYPE_VIDEO]
        by_cases h1 : cls.className = "AVCodecContext" <;>
          by_cases h2 : cls.className = "AVFormatContext" <;>
            by_cases ha : c.codecType = 1 <;>
              by_cases hv : c.codecType = 0 <;>
                cases hd : c.hasDecode <;>
                  cases hasIformat <;> simp_all

/-- C3: the bridge attaches at most once and detaches only on a matching
uninit — from the detached state, `init_libav g` attaches `g` and creates
the four sinks from it; a second init while attached changes nothing;
`uninit_libav` with a different global changes nothing; `uninit_libav`
with the attached global detaches the bridge and frees the sinks; and at
every state at most one instance is attached. -/
theorem libav_attach_detach_protocol :
    (∀ (g : Nat) (st : AvLogState), st.log_mpv_instance = none →
      init_libav g st =
        { st with
          log_mpv_instance := some g
          log_root := some g
          log_decaudio := some g
          log_decvideo := some g
          log_demuxer := some g }) ∧
    (∀ (g g' : Nat) (st : AvLogState), st.log_mpv_instance = some g' →
      init_libav g st = st) ∧
    (∀ (g g' : Nat) (st : AvLogState), st.log_mpv_instance = some g' →
      g ≠ g' → uninit_libav g st = st) ∧
    (∀ (g : Nat) (st : AvLogState), st.log_mpv_instance = some g →
      uninit_libav g st =
        { st with
          log_mpv_instance := none
          log_root := none
          log_decaudio := none
          log_decvideo := none
          log_demuxer := none }) ∧
    (∀ (st : AvLogState) (g1 g2 : Nat), st.log_mpv_instance = some g1 →
      st.log_mpv_instance = some g2 → g1 = g2) := by
  refine ⟨?_, ?_, ?_, ?_, ?_⟩
  · intro g st h
    unfold init_libav
    rw [h]
  · intro g g' st h
    unfold init_libav
    rw [h]
  · intro g g' st h hne
    unfold uninit_libav
    rw [h, if_neg (by simp only [Option.some.injEq]; exact fun hh => hne hh.symm)]
  · intro g st h
    unfold uninit_libav
    rw [h, if_pos rfl]
  · intro st g1 g2 h1 h2
    rw [h1] at h2
    exact Option.some.inj h2

/-- Witness for C3: a full attach / foreign-uninit / matching-uninit cycle
on concrete states. -/
theorem libav_attach_detach_protocol_witness :
    stDetached.log_mpv_instance = none ∧
    init_libav 1 stDetached = stAttached ∧
    stAttached.log_mpv_instance = some 1 ∧
    init_libav 2 stAttached = stAttached ∧
    ((2 : Nat) ≠ 1 ∧ uninit_libav 2 stAttached = stAttached) ∧
    uninit_libav 1 stAttached =
      { stAttached with
        log_mpv_instance := none
        log_root := none
        log_decaudio := none
        log_decvideo := none
        log_demuxer := none } :=
  ⟨rfl,
    by rw [libav_attach_detach_protocol.1 1 stDetached rfl]; rfl,
    rfl,
    libav_attach_detach_protocol.2.1 2 1 stAttached rfl,
    ⟨by decide, libav_attach_detach_protocol.2.2.1 2 1 stAttached rfl (by decide)⟩,
    libav_attach_detach_protocol.2.2.2.1 1 stAttached rfl⟩

/-- C4: the severity translation `av_log_level_to_mp_level` is total and
monotone — a native level at least as severe (numerically no larger) is
assigned an application level at least as severe (numerically no larger) —
and each of the six native bands fatal, error, warning, info, verbose,
debug is assigned a defined application level. -/
theorem av_level_translation_monotone_and_total :
    (∀ a b : Int, a ≤ b →
      av_log_level_to_mp_level a ≤ av_log_level_to_mp_level b) ∧
    av_log_level_to_mp_level AV_LOG_FATAL = MSGL_FATAL ∧
    av_log_level_to_mp_level AV_LOG_ERROR = MSGL_ERR ∧
    av_log_level_to_mp_level AV_LOG_WARNING = MSGL_WARN ∧
    av_log_level_to_mp_level AV_LOG_INFO = MSGL_V ∧
    av_log_level_to_mp_level AV_LOG_VERBOSE = MSGL_V ∧
    av_log_level_to_mp_level AV_LOG_DEBUG = MSGL_DBG2 := by
  refine ⟨?_, by decide, by decide, by decide, by decide, by decide, by decide⟩
  intro a b hab
  unfold av_log_level_to_mp_level AV_LOG_VERBOSE AV_LOG_INFO AV_LOG_WARNING
    AV_LOG_ERROR AV_LOG_FATAL MSGL_FATAL MSGL_ERR MSGL_WARN MSGL_V MSGL_DBG2
  split_ifs <;> omega

/-- Witness for C4: monotonicity applied at the concrete fatal and error
levels. -/
theorem av_level_translation_monotone_witness :
    AV_LOG_FATAL ≤ AV_LOG_ERROR ∧
    av_log_level_to_mp_level AV_LOG_FATAL ≤
      av_log_level_to_mp_level AV_LOG_ERROR :=
  ⟨by decide,
    av_level_translation_monotone_and_total.1 AV_LOG_FATAL AV_LOG_ERROR
      (by decide)⟩

/-- C9: under the precondition that the format string is non-empty (and of
realistic length), the end-of-line check `fmt[strlen(fmt) - 1]` of a
forwarded message is in bounds, the callback takes no out-of-bounds
branch, and on the empty string the same indexing would be out of
bounds. -/
theorem callback_last_char_in_bounds (cfg : LogConfig) (st : AvLogState)
    (ptr : AVLogSource) (level : Int) (fmt : List Char) (g : Nat)
    (hatt : st.log_mpv_instance = some g)
    (hfwd : cfg.testLog (get_av_log ptr) (av_log_level_to_mp_level level) = true)
    (hne : fmt ≠ []) (hlen : strlen fmt < 2 ^ 64) :
    (fmt_last_char fmt).isSome = true ∧
    (mp_msg_av_log_callback cfg st ptr level fmt).isSome = true ∧
    fmt_last_char [] = none := by
  refine ⟨?_, ?_, by decide⟩
  · rw [fmt_last_char_eq_getLast fmt hne hlen]
    exact List.getLast?_isSome.mpr hne
  · rw [callback_forwarded_eq cfg st ptr level fmt g hatt hfwd hne hlen]
    rfl

/-- Witness for C9 at a concrete attached state and non-empty message. -/
theorem callback_last_char_in_bounds_witness :
    stAttached.log_mpv_instance = some 1 ∧
    cfgAll.testLog (get_av_log AVLogSource.nullPtr)
      (av_log_level_to_mp_level 16) = true ∧
    fmtHello ≠ [] ∧ strlen fmtHello < 2 ^ 64 ∧
    ((fmt_last_char fmtHello).isSome = true ∧
      (mp_msg_av_log_callback cfgAll stAttached AVLogSource.nullPtr 16
        fmtHello).isSome = true ∧
      fmt_last_char [] = none) :=
  ⟨rfl, rfl, by decide, by decide,
    callback_last_char_in_bounds cfgAll stAttached AVLogSource.nullPtr 16
      fmtHello 1 rfl rfl (by decide) (by decide)⟩

/-- C10: with no instance attached, the callback writes the raw format
string to stderr and leaves the whole bridge state — attached instance,
sinks and incomplete-line flag — unchanged; the result does not involve
the sink selection or the translated severity (it is the same for every
source identity and level). -/
theorem callback_detached_falls_back_to_stderr (cfg : LogConfig)
    (st : AvLogState) (ptr : AVLogSource) (level : Int) (fmt : List Char)
    (hdet : st.log_mpv_instance = none) :
    mp_msg_av_log_callback cfg st ptr level fmt =
      some (st, [LogEvent.stderrOut fmt]) := by
  unfold mp_msg_av_log_callback
  rw [hdet]

/-- Witness for C10 at the concrete detached state. -/
theorem callback_detached_falls_back_to_stderr_witness :
    stDetached.log_mpv_instance = none ∧
    mp_msg_av_log_callback cfgAll stDetached AVLogSource.nullPtr 32 fmtHello =
      some (stDetached, [LogEvent.stderrOut fmtHello]) :=
  ⟨rfl,
    callback_detached_falls_back_to_stderr cfgAll stDetached
      AVLogSource.nullPtr 32 fmtHello rfl⟩

/-! ## Claim theorems for the mixer. -/

/-- Serializing to six decimal places and parsing back moves a value by at
most half a micro-unit, hence by at most 1e-6. -/
lemma decode6_encode6_close (x : ℚ) :
    |decode6 (encode6 x) - x| ≤ 1 / 1000000 := by
  unfold decode6 encode6
  have h : |((round (x * 1000000) : ℤ) : ℚ) - x * 1000000| ≤ 1 / 2 := by
    rw [abs_sub_comm]
    exact abs_sub_round (x * 1000000)
  have heq : ((round (x * 1000000) : ℤ) : ℚ) / 1000000 - x
      = (((round (x * 1000000) : ℤ) : ℚ) - x * 1000000) / 1000000 := by ring
  rw [heq, abs_div, abs_of_pos (by norm_num : (0 : ℚ) < 1000000)]
  refine le_trans ?_ (by norm_num : ((1 : ℚ) / 2) / 1000000 ≤ 1 / 1000000)
  gcongr

/-- C5: on a well-formed mixer state, `mixer_incvolume` at combined volume
100 leaves the whole VolumeState (left, right, balance, mute) unchanged,
and `mixer_decvolume` at combined volume 0 likewise; the clamp boundary is
a silent no-op, not an error (the operations are total). -/
theorem mixer_inc_dec_noop_at_bounds (m : Mixer) (hwf : m.vol.wf) :
    (mixer_getbothvolume m = 100 → mixer_incvolume m = m) ∧
    (mixer_getbothvolume m = 0 → mixer_decvolume m = m) := by
  obtain ⟨vol, binding⟩ := m
  obtain ⟨l, r, b, mu, sv⟩ := vol
  obtain ⟨h1, h2, h3, h4, h5, h6, h7⟩ := hwf
  simp only at h1 h2 h3 h4 h5 h6 h7
  constructor
  · intro h100
    simp only [mixer_getbothvolume] at h100
    have hl : l = 100 := by linarith
    have hr : r = 100 := by linarith
    have hb : b = 0 := by
      rw [hl, hr] at h7
      linarith
    subst hl
    subst hr
    subst hb
    simp only [mixer_incvolume, mixer_setvolume, mixer_getbothvolume, clampQ,
      volstep, min_def, max_def]
    norm_num
  · intro h0
    simp only [mixer_getbothvolume] at h0
    have hl : l = 0 := by linarith
    have hr : r = 0 := by linarith
    subst hl
    subst hr
    simp only [mixer_decvolume, mixer_setvolume, mixer_getbothvolume, clampQ,
      volstep, min_def, max_def]
    norm_num

/-- Witness for C5: the full centered unmuted mixer sits at combined volume
100 and `mixer_incvolume` leaves it unchanged. -/
theorem mixer_inc_noop_witness :
    mixer100.vol.wf ∧ mixer_getbothvolume mixer100 = 100 ∧
    mixer_incvolume mixer100 = mixer100 :=
  have hwf : mixer100.vol.wf := by
    simp only [VolumeState.wf, mixer100]
    norm_num
  have hc : mixer_getbothvolume mixer100 = 100 := by
    simp only [mixer_getbothvolume, mixer100]
    norm_num
  ⟨hwf, hc, (mixer_inc_dec_noop_at_bounds mixer100 hwf).1 hc⟩

/-- C6: for every mixer state and every requested balance, whether or not a
device binding exists, `mixer_setbalance` followed by `mixer_getbalance`
returns exactly the clamp of the request to [-1, 1]. -/
theorem setbalance_getbalance_exact (m : Mixer) (bal : ℚ) :
    mixer_getbalance (mixer_setbalance m bal) = clampQ (-1) 1 bal := rfl

/-- C7: `mixer_setmute` changes only the mute flag — stored left volume,
right volume and balance are untouched, `mixer_getvolume` after muting
returns the pre-mute stored values, and unmuting restores the emitted
output to those values. -/
theorem setmute_touches_only_mute_flag (m : Mixer) (mu : Bool) :
    (mixer_setmute m mu).vol.leftVolume = m.vol.leftVolume ∧
    (mixer_setmute m mu).vol.rightVolume = m.vol.rightVolume ∧
    (mixer_setmute m mu).vol.balance = m.vol.balance ∧
    mixer_getmute (mixer_setmute m mu) = mu ∧
    mixer_getvolume (mixer_setmute m true) = mixer_getvolume m ∧
    emittedVolume (mixer_setmute m false) = mixer_getvolume m :=
  ⟨rfl, rfl, rfl, rfl, rfl, rfl⟩

/-- C8: serializing with `mixer_get_volume_restore_data` and reloading
through the corresponding load path reproduces left, right and balance
within an absolute tolerance of 1e-6 and the mute flag exactly, on every
VolumeState. -/
theorem restore_data_roundtrip (m : Mixer) :
    |(load_volume_restore_data m (mixer_get_volume_restore_data m)).vol.leftVolume
        - m.vol.leftVolume| ≤ 1 / 1000000 ∧
    |(load_volume_restore_data m (mixer_get_volume_restore_data m)).vol.rightVolume
        - m.vol.rightVolume| ≤ 1 / 1000000 ∧
    |(load_volume_restore_data m (mixer_get_volume_restore_data m)).vol.balance
        - m.vol.balance| ≤ 1 / 1000000 ∧
    (load_volume_restore_data m (mixer_get_volume_restore_data m)).vol.mute
        = m.vol.mute :=
  ⟨decode6_encode6_close m.vol.leftVolume,
    decode6_encode6_close m.vol.rightVolume,
    decode6_encode6_close m.vol.balance, rfl⟩

end Spec2Proof
